import Mathlib

/-!
Verification development for the Charon client engine and session layer.

The definitions below are a shallow embedding of the C++ sources:
`client.cpp` (the `Client::Impl` engine: `RpcResultHandler::handleIqID`,
`Client::Impl::ForwardMethod`, `Client::Impl::handlePresence`,
`NotificationState::WaitForChange`, `Client::AddNotification`) and
`xmppclient.cpp` (`XmppClient::Receive`).  Library types that the code
only consumes through accessors (jsoncpp values, gloox JIDs / IQ stanzas /
stanza extensions) are embedded as plain structures carrying exactly the
fields those accessors expose.
-/

namespace Charon

/-- JSON values as used by jsoncpp; a default-constructed `Json::Value`
is `null`. -/
inductive Json where
  | null
  | bool (b : Bool)
  | num (n : Int)
  | str (s : String)
  | arr (elems : List Json)
  | obj (fields : List (String × Json))

mutual

/-- Structural equality on JSON values, i.e. jsoncpp `operator==`. -/
def Json.beq : Json → Json → Bool
  | Json.null, Json.null => true
  | Json.bool a, Json.bool b => a == b
  | Json.num a, Json.num b => a == b
  | Json.str a, Json.str b => a == b
  | Json.arr a, Json.arr b => Json.beqList a b
  | Json.obj a, Json.obj b => Json.beqFields a b
  | _, _ => false

/-- Element-wise equality of JSON arrays. -/
def Json.beqList : List Json → List Json → Bool
  | [], [] => true
  | x :: xs, y :: ys => Json.beq x y && Json.beqList xs ys
  | _, _ => false

/-- Element-wise equality of JSON object field lists. -/
def Json.beqFields : List (String × Json) → List (String × Json) → Bool
  | [], [] => true
  | (k, v) :: xs, (l, w) :: ys => k == l && Json.beq v w && Json.beqFields xs ys
  | _, _ => false

end

/-- A gloox `JID`: username, server and resource part.  A bare JID has an
empty resource. -/
structure JID where
  username : String
  server : String
  resource : String
deriving DecidableEq

/-- `JID::bareJID ()`: the same address with the resource stripped. -/
def JID.bareJID (j : JID) : JID :=
  { j with resource := "" }

/-- `JID::bare ()`: the bare address as a string. -/
def JID.bare (j : JID) : String :=
  if j.username = "" then j.server else j.username ++ "@" ++ j.server

/-- `JID::full ()`: the full address as a string. -/
def JID.full (j : JID) : String :=
  if j.resource = "" then j.bare else j.bare ++ "/" ++ j.resource

/-- `RpcServer::Error`: the structured backend error carrying a numeric
code, a message and optional JSON data (with `Json.null` standing for
the defaulted/absent data value). -/
structure Error where
  code : Int
  message : String
  data : Json

/-- `jsonrpc::Errors::ERROR_RPC_INTERNAL_ERROR`, the JSON-RPC internal
error code used for all of Charon's transport-level failures. -/
def ERROR_RPC_INTERNAL_ERROR : Int := -32603

/-- `DEFAULT_TIMEOUT`, in seconds (`std::chrono::seconds (3)`). -/
def DEFAULT_TIMEOUT_SECONDS : Nat := 3

/-- `WAITFORCHANGE_TIMEOUT`, in seconds (`std::chrono::seconds (5)`). -/
def WAITFORCHANGE_TIMEOUT_SECONDS : Nat := 5

/-- `OngoingRpcCall::State`. -/
inductive CallState where
  | WAITING
  | UNAVAILABLE
  | RESPONSE_SUCCESS
  | RESPONSE_ERROR
deriving DecidableEq

/-- The mutable data of an `OngoingRpcCall` that `RpcResultHandler` and
`ForwardMethod` exchange: state, target JID, result and error fields. -/
structure OngoingRpcCall where
  state : CallState
  serverJid : JID
  result : Json
  error : Error

/-- `gloox::IQ::IqType`. -/
inductive IqType where
  | Get
  | Set
  | Result
  | Error
deriving DecidableEq

/-- The gloox stanza-error conditions (`gloox::StanzaError`) that can be
attached to an error IQ. -/
inductive StanzaError where
  | BadRequest
  | Conflict
  | FeatureNotImplemented
  | Forbidden
  | Gone
  | InternalServerError
  | ItemNotFound
  | JidMalformed
  | NotAcceptable
  | NotAllowed
  | NotAuthorized
  | PaymentRequired
  | RecipientUnavailable
  | Redirect
  | RegistrationRequired
  | RemoteServerNotFound
  | RemoteServerTimeout
  | ResourceConstraint
  | ServiceUnavailable
  | SubscriptionRequired
  | UndefinedCondition
  | UnexpectedRequest
deriving DecidableEq

/-- The `RpcResponse` stanza extension as seen through its accessors
(`IsValid`, `IsSuccess`, `GetResult`, `GetErrorCode`, `GetErrorMessage`,
`GetErrorData`). -/
structure RpcResponse where
  valid : Bool
  success : Bool
  result : Json
  errorCode : Int
  errorMessage : String
  errorData : Json

/-- An incoming IQ stanza as consumed by `RpcResultHandler::handleIqID`:
its subtype, sender, attached stanza error (if any; `iq.error ()` may be
null) and attached `RpcResponse` extension (if any). -/
structure IQ where
  subtype : IqType
  fromJid : JID
  error : Option StanzaError
  rpcResponse : Option RpcResponse

/-- Result of running `RpcResultHandler::handleIqID`: the updated call
data and whether `call->cv.Notify ()` was invoked. -/
structure HandleResult where
  call : OngoingRpcCall
  notified : Bool

/-- `RpcResultHandler::handleIqID`: processes one incoming IQ against the
ongoing call.  Non-waiting calls, non-Result subtypes (except a
service-unavailable error), missing and invalid `RpcResponse` extensions
are all ignored; otherwise the call is resolved to success or error and
waiters are notified. -/
def handleIqID (call : OngoingRpcCall) (iq : IQ) : HandleResult :=
  if call.state ≠ CallState.WAITING then
    ⟨call, false⟩
  else if iq.subtype = IqType.Error ∧ iq.error = some StanzaError.ServiceUnavailable then
    ⟨{ call with state := CallState.UNAVAILABLE }, true⟩
  else if iq.subtype ≠ IqType.Result then
    ⟨call, false⟩
  else
    match iq.rpcResponse with
    | none => ⟨call, false⟩
    | some ext =>
        if !ext.valid then
          ⟨call, false⟩
        else if ext.success then
          ⟨{ call with state := CallState.RESPONSE_SUCCESS, result := ext.result }, true⟩
        else
          ⟨{ call with
              state := CallState.RESPONSE_ERROR
              error := ⟨ext.errorCode, ext.errorMessage, ext.errorData⟩ }, true⟩

/-- The two ways `Client::Impl::ForwardMethod` can finish: returning a
JSON result or throwing an `RpcServer::Error`. -/
inductive ForwardOutcome where
  | success (result : Json)
  | thrown (e : Error)

/-- One iteration of the wait loop at the end of
`Client::Impl::ForwardMethod`: examine the call after a wake-up (with
`timedOut` the value of `call->cv.IsTimedOut ()`) and either finish with
an outcome or (`none`) keep waiting. -/
def resolveStep (call : OngoingRpcCall) (timedOut : Bool) : Option ForwardOutcome :=
  match call.state with
  | CallState.RESPONSE_SUCCESS => some (ForwardOutcome.success call.result)
  | CallState.RESPONSE_ERROR => some (ForwardOutcome.thrown call.error)
  | CallState.UNAVAILABLE =>
      some (ForwardOutcome.thrown
        ⟨ERROR_RPC_INTERNAL_ERROR, "selected server is unavailable", Json.null⟩)
  | CallState.WAITING =>
      if timedOut then
        some (ForwardOutcome.thrown
          ⟨ERROR_RPC_INTERNAL_ERROR,
            "timeout waiting for result from " ++ call.serverJid.full, Json.null⟩)
      else none

/-- `HasFullServerJid`: whether the selected server JID carries a
resource. -/
def HasFullServerJid (fullServerJid : JID) : Bool :=
  fullServerJid.resource ≠ ""

/-- The discovery check at the top of `Client::Impl::ForwardMethod`
(after `TryEnsureFullServerJid` returns): if there is still no full
server JID, the thrown error; otherwise `none` and the call proceeds.
`serverJidStr` is the configured bare server address `client.serverJid`
(a string). -/
def forwardMethodDiscoveryCheck (fullServerJid : JID) (serverJidStr : String) :
    Option Error :=
  if HasFullServerJid fullServerJid then
    none
  else
    some ⟨ERROR_RPC_INTERNAL_ERROR,
      "could not discover full server JID for " ++ serverJidStr, Json.null⟩

/-- `gloox::Presence::PresenceType`. -/
inductive PresenceType where
  | Available
  | Chat
  | Away
  | DND
  | XA
  | Unavailable
  | Probe
  | Error
  | Invalid
deriving DecidableEq

/-- The `SupportedNotifications` stanza extension as seen through its
accessors: the pubsub service address and the map from notification type
name to pubsub node name (`GetService`, `GetNotifications`). -/
structure SupportedNotifications where
  service : String
  notifications : List (String × String)

/-- Lookup of a type name in a `SupportedNotifications` map,
i.e. `sn->GetNotifications ().find (name)`. -/
def snFind (sn : SupportedNotifications) (name : String) : Option String :=
  (sn.notifications.find? (fun p => p.fst == name)).map Prod.snd

/-- An incoming presence stanza as consumed by
`Client::Impl::handlePresence`: its subtype, sender, whether a
`PongMessage` extension is attached, and the attached
`SupportedNotifications` extension (if any). -/
structure Presence where
  subtype : PresenceType
  fromJid : JID
  pong : Bool
  sn : Option SupportedNotifications

/-- The part of the `Client::Impl` state that `handlePresence` reads and
writes: the selected server JID and the keys of the per-notification
`states` map (in map order). -/
structure ClientImplState where
  fullServerJid : JID
  states : List String
deriving DecidableEq

/-- Observable side effects of `handlePresence` other than the state
update: answering with a presence, recreating the pubsub instance,
starting subscription threads, and waking an in-flight discovery
wait. -/
inductive ClientAction where
  | sendAvailableTo (j : JID)
  | finishSubscriptions
  | addPubSub (service : String)
  | subscribeNode (node : String) (tyName : String)
  | notifyPing
deriving DecidableEq

/-- The feature-parity loop of `handlePresence` over the registered
notification types: fails (returns `false`, i.e. the handler returns
early) if any type is checked while the `SupportedNotifications`
extension is missing, or some type name is absent from its map. -/
def parityCheck (states : List String) (sn : Option SupportedNotifications) : Bool :=
  match states with
  | [] => true
  | name :: rest =>
      match sn with
      | none => false
      | some s => if (snFind s name).isSome then parityCheck rest sn else false

/-- The pubsub-recreation block run on first acceptance of a server
(inside `if (!HasFullServerJid ())`): when notification types are
registered, finish old subscriptions, add a pubsub instance for the
advertised service and start one subscription per registered type.  The
`none` branch with registered types is unreachable after a successful
parity check (the code `CHECK`s the extension is present). -/
def selectionActions (states : List String) (sn : Option SupportedNotifications) :
    List ClientAction :=
  match states, sn with
  | [], _ => []
  | _ :: _, none => []
  | sts, some s =>
      ClientAction.finishSubscriptions :: ClientAction.addPubSub s.service ::
        sts.map (fun n => ClientAction.subscribeNode ((snFind s n).getD "") n)

/-- `Client::Impl::handlePresence`: processes one presence stanza,
returning the updated client state and the list of performed actions in
order. -/
def handlePresence (st : ClientImplState) (p : Presence) :
    ClientImplState × List ClientAction :=
  match p.subtype with
  | PresenceType.Available =>
      if !p.pong then
        (st, [])
      else if !parityCheck st.states p.sn then
        (st, [])
      else if HasFullServerJid st.fullServerJid then
        (st, [ClientAction.notifyPing])
      else
        ({ st with fullServerJid := p.fromJid },
          (ClientAction.sendAvailableTo p.fromJid ::
            selectionActions st.states p.sn) ++ [ClientAction.notifyPing])
  | PresenceType.Unavailable =>
      if p.fromJid = st.fullServerJid then
        ({ st with fullServerJid := st.fullServerJid.bareJID }, [])
      else
        (st, [])
  | _ => (st, [])

/-- The per-type notification state of the client: the
"has-ever-received" flag and the cached full state value
(`NotificationState`). -/
structure NotificationStateData where
  hasState : Bool
  state : Json

/-- The initial `NotificationState`: no state received yet, `state` a
default-constructed (null) JSON value. -/
def initialNotificationState : NotificationStateData :=
  ⟨false, Json.null⟩

/-- Result of `NotificationState::WaitForChange`: the returned JSON
value and whether the call entered the timed wait. -/
structure WaitResult where
  value : Json
  waited : Bool

/-- `NotificationState::WaitForChange`: if a state was ever received and
its extracted state id differs from the caller's known id, return the
current state immediately; otherwise wait (up to
`WAITFORCHANGE_TIMEOUT`) and return whatever the state field holds at
wake-up time (`stateAfterWait`, which equals the old state when no
update arrived).  `extract` is `notification.ExtractStateId`. -/
def WaitForChange (extract : Json → Json) (ns : NotificationStateData)
    (known : Json) (stateAfterWait : NotificationStateData) : WaitResult :=
  if ns.hasState && !(Json.beq known (extract ns.state)) then
    ⟨ns.state, false⟩
  else
    ⟨stateAfterWait.state, true⟩

/-- The pubsub item payload as consumed by the callback from
`NotificationState::GetItemCallback`: whether the tag has an "update"
child, and the `NotificationUpdate` parsed from it (validity flag, type
name, state value). -/
structure UpdateTag where
  hasUpdateChild : Bool
  valid : Bool
  tyName : String
  state : Json

/-- The item callback built by `NotificationState::GetItemCallback`:
drops payloads without an "update" child, invalid updates and updates
for a different type; otherwise records the new state, sets the
has-state flag and notifies waiters (the returned Bool). -/
def itemCallback (notifType : String) (ns : NotificationStateData) (t : UpdateTag) :
    NotificationStateData × Bool :=
  if !t.hasUpdateChild then
    (ns, false)
  else if !t.valid then
    (ns, false)
  else if t.tyName ≠ notifType then
    (ns, false)
  else
    (⟨true, t.state⟩, true)

/-- The notification states reachable from construction by any sequence
of item-callback invocations. -/
inductive ReachableNS (ty : String) : NotificationStateData → Prop where
  | init : ReachableNS ty initialNotificationState
  | step (ns : NotificationStateData) (t : UpdateTag) :
      ReachableNS ty ns → ReachableNS ty (itemCallback ty ns t).fst

/-- The public `Client` state relevant to `Client::AddNotification`:
whether the internal `Impl` exists (a connection has been started) and
the names of the registered notification types. -/
structure ClientPub where
  implExists : Bool
  notifications : List String
deriving DecidableEq

/-- `Client::AddNotification`: `none` models a failed `CHECK`
(process abort) — either the connection was already started
(`CHECK (impl == nullptr)`) or the type name is already registered
(`CHECK (res.second)`); otherwise the type is added to the map. -/
def AddNotification (c : ClientPub) (ty : String) : Option ClientPub :=
  if c.implExists then
    none
  else if c.notifications.contains ty then
    none
  else
    some { c with notifications := c.notifications ++ [ty] }

/-- `gloox::ConnectionError`, the result type of `client.recv`. -/
inductive ConnectionError where
  | ConnNoError
  | ConnStreamError
  | ConnStreamVersionError
  | ConnStreamClosed
  | ConnProxyAuthRequired
  | ConnProxyAuthFailed
  | ConnProxyNoSupportedAuth
  | ConnIoError
  | ConnParseError
  | ConnConnectionRefused
  | ConnDnsError
  | ConnOutOfMemory
  | ConnNoSupportedAuth
  | ConnTlsFailed
  | ConnTlsNotAvailable
  | ConnCompressionFailed
  | ConnAuthenticationFailed
  | ConnUserDisconnected
  | ConnNotConnected
deriving DecidableEq

/-- The three ways an iteration of `XmppClient::Receive` can end: return
`true` (receive loop continues), return `false` (loop stops normally),
or `LOG (FATAL)` (process aborts). -/
inductive ReceiveOutcome where
  | continueLoop
  | stopLoop
  | fatal
deriving DecidableEq

/-- `XmppClient::Receive`, as a function of the result of
`client.recv (0)`. -/
def Receive (res : ConnectionError) : ReceiveOutcome :=
  match res with
  | ConnectionError.ConnNotConnected => ReceiveOutcome.stopLoop
  | ConnectionError.ConnStreamClosed => ReceiveOutcome.stopLoop
  | ConnectionError.ConnNoError => ReceiveOutcome.continueLoop
  | _ => ReceiveOutcome.fatal

/-- Claim C1: when a forwarded RPC call receives an error response, the
error thrown by `ForwardMethod` carries exactly the numeric code, message
and data of the received `RpcResponse` extension, unmodified. -/
theorem forwarded_error_propagates_unmodified
    (call : OngoingRpcCall) (iq : IQ) (ext : RpcResponse)
    (hw : call.state = CallState.WAITING)
    (hsub : iq.subtype = IqType.Result)
    (hext : iq.rpcResponse = some ext)
    (hv : ext.valid = true)
    (hs : ext.success = false) :
    (handleIqID call iq).notified = true ∧
    resolveStep (handleIqID call iq).call false =
      some (ForwardOutcome.thrown ⟨ext.errorCode, ext.errorMessage, ext.errorData⟩) := by
  simp [handleIqID, resolveStep, hw, hsub, hext, hv, hs]

/-- Witness for C1 at a concrete error response with code -7, message
"boom" and data "d". -/
theorem forwarded_error_propagates_unmodified_witness :
    (handleIqID
        ⟨CallState.WAITING, ⟨"srv", "example.org", "r1"⟩, Json.null, ⟨0, "", Json.null⟩⟩
        ⟨IqType.Result, ⟨"srv", "example.org", "r1"⟩, none,
          some ⟨true, false, Json.null, -7, "boom", Json.str "d"⟩⟩).notified = true ∧
    resolveStep
        (handleIqID
          ⟨CallState.WAITING, ⟨"srv", "example.org", "r1"⟩, Json.null, ⟨0, "", Json.null⟩⟩
          ⟨IqType.Result, ⟨"srv", "example.org", "r1"⟩, none,
            some ⟨true, false, Json.null, -7, "boom", Json.str "d"⟩⟩).call false =
      some (ForwardOutcome.thrown ⟨-7, "boom", Json.str "d"⟩) :=
  forwarded_error_propagates_unmodified _ _ _ rfl rfl rfl rfl rfl

/-- Claim C2: every transport / discovery failure of `ForwardMethod` is
surfaced as a backend error with the JSON-RPC internal-error code and a
descriptive message (undiscovered server JID, service-unavailable reply,
3-second timeout), and no transport failure resolves with any other code
or as a non-error result. -/
theorem transport_failures_internal_error
    (fullServerJid : JID) (serverJidStr : String) (call : OngoingRpcCall)
    (timedOut : Bool) :
    (HasFullServerJid fullServerJid = false →
      forwardMethodDiscoveryCheck fullServerJid serverJidStr =
        some ⟨ERROR_RPC_INTERNAL_ERROR,
          "could not discover full server JID for " ++ serverJidStr, Json.null⟩) ∧
    (call.state = CallState.UNAVAILABLE →
      resolveStep call timedOut =
        some (ForwardOutcome.thrown
          ⟨ERROR_RPC_INTERNAL_ERROR, "selected server is unavailable", Json.null⟩)) ∧
    (call.state = CallState.WAITING → timedOut = true →
      resolveStep call timedOut =
        some (ForwardOutcome.thrown
          ⟨ERROR_RPC_INTERNAL_ERROR,
            "timeout waiting for result from " ++ call.serverJid.full, Json.null⟩)) ∧
    DEFAULT_TIMEOUT_SECONDS = 3 ∧
    (∀ e, forwardMethodDiscoveryCheck fullServerJid serverJidStr = some e →
      e.code = ERROR_RPC_INTERNAL_ERROR) ∧
    ((call.state = CallState.WAITING ∨ call.state = CallState.UNAVAILABLE) →
      ∀ o, resolveStep call timedOut = some o →
        ∃ e, o = ForwardOutcome.thrown e ∧ e.code = ERROR_RPC_INTERNAL_ERROR) := by
  refine ⟨?_, ?_, ?_, rfl, ?_, ?_⟩
  · intro h
    simp [forwardMethodDiscoveryCheck, h]
  · intro h
    simp [resolveStep, h]
  · intro h ht
    simp [resolveStep, h, ht]
  · intro e he
    unfold forwardMethodDiscoveryCheck at he
    by_cases h : HasFullServerJid fullServerJid = true
    · simp [h] at he
    · simp [h] at he
      subst he
      rfl
  · rintro (h | h) o ho
    · rw [resolveStep, h] at ho
      by_cases ht : timedOut = true
      · rw [ht] at ho
        simp at ho
        exact ⟨_, ho.symm, rfl⟩
      · simp [ht] at ho
    · rw [resolveStep, h] at ho
      simp at ho
      exact ⟨_, ho.symm, rfl⟩

/-- Witness for C2: the discovery failure and the timeout failure at
concrete inputs. -/
theorem transport_failures_internal_error_witness :
    forwardMethodDiscoveryCheck ⟨"srv", "example.org", ""⟩ "srv@example.org" =
      some ⟨ERROR_RPC_INTERNAL_ERROR,
        "could not discover full server JID for " ++ "srv@example.org", Json.null⟩ ∧
    resolveStep
        ⟨CallState.WAITING, ⟨"srv", "example.org", "r1"⟩, Json.null, ⟨0, "", Json.null⟩⟩
        true =
      some (ForwardOutcome.thrown
        ⟨ERROR_RPC_INTERNAL_ERROR,
          "timeout waiting for result from " ++
            (JID.mk "srv" "example.org" "r1").full, Json.null⟩) :=
  ⟨(transport_failures_internal_error ⟨"srv", "example.org", ""⟩ "srv@example.org"
      ⟨CallState.WAITING, ⟨"srv", "example.org", "r1"⟩, Json.null, ⟨0, "", Json.null⟩⟩
      true).1 rfl,
   (transport_failures_internal_error ⟨"srv", "example.org", ""⟩ "srv@example.org"
      ⟨CallState.WAITING, ⟨"srv", "example.org", "r1"⟩, Json.null, ⟨0, "", Json.null⟩⟩
      true).2.2.1 rfl rfl⟩

/-- Counterexample to claim C3 as stated: a service-unavailable error IQ
that carries no `RpcResponse` extension nevertheless resolves a waiting
call (its state changes to UNAVAILABLE and the waiter is notified),
although the claim's condition "the IQ lacks an RpcResponse extension"
holds. -/
theorem dropped_iq_counterexample :
    ((⟨CallState.WAITING, ⟨"srv", "example.org", "r1"⟩, Json.null,
        ⟨0, "", Json.null⟩⟩ : OngoingRpcCall).state = CallState.WAITING) ∧
    ((⟨IqType.Error, ⟨"srv", "example.org", "r1"⟩, some StanzaError.ServiceUnavailable,
        none⟩ : IQ).rpcResponse = none) ∧
    (handleIqID
        ⟨CallState.WAITING, ⟨"srv", "example.org", "r1"⟩, Json.null, ⟨0, "", Json.null⟩⟩
        ⟨IqType.Error, ⟨"srv", "example.org", "r1"⟩, some StanzaError.ServiceUnavailable,
          none⟩).call.state = CallState.UNAVAILABLE ∧
    (handleIqID
        ⟨CallState.WAITING, ⟨"srv", "example.org", "r1"⟩, Json.null, ⟨0, "", Json.null⟩⟩
        ⟨IqType.Error, ⟨"srv", "example.org", "r1"⟩, some StanzaError.ServiceUnavailable,
          none⟩).notified = true :=
  ⟨rfl, rfl, rfl, rfl⟩

/-- Claim C3 (amended): if the matching call is no longer WAITING, or
the IQ is not a service-unavailable error and in addition its subtype is
not Result, or it lacks an `RpcResponse` extension, or the extension is
invalid, then the handler leaves the call unchanged and does not notify
the waiting thread. -/
theorem dropped_iq_leaves_call_unchanged
    (call : OngoingRpcCall) (iq : IQ)
    (h : call.state ≠ CallState.WAITING ∨
      (¬ (iq.subtype = IqType.Error ∧ iq.error = some StanzaError.ServiceUnavailable) ∧
        (iq.subtype ≠ IqType.Result ∨ iq.rpcResponse = none ∨
          ∀ ext, iq.rpcResponse = some ext → ext.valid = false))) :
    handleIqID call iq = ⟨call, false⟩ := by
  by_cases hw : call.state = CallState.WAITING
  · rcases h with h | ⟨hsu, hrest⟩
    · exact absurd hw h
    · unfold handleIqID
      rw [if_neg (show ¬(call.state ≠ CallState.WAITING) from by simp [hw]),
        if_neg hsu]
      rcases hrest with h | h | h
      · simp [h]
      · simp [h]
      · by_cases hr : iq.subtype = IqType.Result
        · rw [if_neg (show ¬(iq.subtype ≠ IqType.Result) from by simp [hr])]
          cases hext : iq.rpcResponse with
          | none => rfl
          | some ext => simp [h ext hext]
        · simp [hr]
  · simp [handleIqID, hw]

/-- Witness for C3 (amended) at a concrete non-waiting call. -/
theorem dropped_iq_leaves_call_unchanged_witness :
    handleIqID
        ⟨CallState.RESPONSE_SUCCESS, ⟨"srv", "example.org", "r1"⟩, Json.null,
          ⟨0, "", Json.null⟩⟩
        ⟨IqType.Result, ⟨"srv", "example.org", "r1"⟩, none,
          some ⟨true, true, Json.str "x", 0, "", Json.null⟩⟩ =
      ⟨⟨CallState.RESPONSE_SUCCESS, ⟨"srv", "example.org", "r1"⟩, Json.null,
          ⟨0, "", Json.null⟩⟩, false⟩ :=
  dropped_iq_leaves_call_unchanged _ _ (Or.inl (by decide))

/-- Claim C4: peer selection is first-responder-wins — once the
qualified address has a non-empty resource, any further Available
presence leaves it unchanged; when no resource is set yet, the first
accepted Available presence records its sender. -/
theorem first_responder_wins
    (st : ClientImplState) (p : Presence)
    (hsub : p.subtype = PresenceType.Available) :
    (st.fullServerJid.resource ≠ "" →
      (handlePresence st p).fst.fullServerJid = st.fullServerJid) ∧
    (st.fullServerJid.resource = "" → p.pong = true →
      parityCheck st.states p.sn = true →
      (handlePresence st p).fst.fullServerJid = p.fromJid) := by
  constructor
  · intro hres
    unfold handlePresence
    rw [hsub]
    cases hp : p.pong with
    | false => simp
    | true =>
        cases hpar : parityCheck st.states p.sn with
        | false => simp
        | true => simp [HasFullServerJid, hres]
  · intro hres hp hpar
    unfold handlePresence
    rw [hsub]
    simp [hp, hpar, HasFullServerJid, hres]

/-- Witness for C4: an already-selected state ignores a further
Available presence from a different sender, and an unselected state
adopts the first accepted sender. -/
theorem first_responder_wins_witness :
    (handlePresence ⟨⟨"srv", "example.org", "r1"⟩, []⟩
        ⟨PresenceType.Available, ⟨"srv", "example.org", "r2"⟩, true, none⟩).fst.fullServerJid
      = ⟨"srv", "example.org", "r1"⟩ ∧
    (handlePresence ⟨⟨"srv", "example.org", ""⟩, []⟩
        ⟨PresenceType.Available, ⟨"srv", "example.org", "r2"⟩, true, none⟩).fst.fullServerJid
      = ⟨"srv", "example.org", "r2"⟩ :=
  ⟨(first_responder_wins ⟨⟨"srv", "example.org", "r1"⟩, []⟩
      ⟨PresenceType.Available, ⟨"srv", "example.org", "r2"⟩, true, none⟩ rfl).1
      (by decide),
   (first_responder_wins ⟨⟨"srv", "example.org", ""⟩, []⟩
      ⟨PresenceType.Available, ⟨"srv", "example.org", "r2"⟩, true, none⟩ rfl).2
      rfl rfl (by decide)⟩

/-- The feature-parity loop fails exactly on the claimed inputs: some
registered notification type is checked while the advertisement is
missing, or its name is absent from the advertised map. -/
theorem parityCheck_eq_false_of
    (states : List String) (sn : Option SupportedNotifications)
    (hne : states ≠ [])
    (h : sn = none ∨ ∃ s, sn = some s ∧ ∃ n ∈ states, snFind s n = none) :
    parityCheck states sn = false := by
  induction states with
  | nil => exact absurd rfl hne
  | cons a rest ih =>
      rcases h with h | ⟨s, hs, n, hn, hfind⟩
      · subst h
        rfl
      · subst hs
        rw [parityCheck]
        rcases List.mem_cons.mp hn with rfl | hmem
        · simp [hfind]
        · by_cases hf : (snFind s a).isSome = true
          · have hrest : rest ≠ [] := List.ne_nil_of_mem hmem
            simp [hf, ih hrest (Or.inr ⟨s, rfl, n, hmem, hfind⟩)]
          · simp [hf]

/-- Claim C5: a peer whose Pong presence lacks full feature parity with
the registered notification types (missing advertisement, or some
registered type name absent from it) is rejected before any selection:
the handler returns with the state unchanged and performs no action. -/
theorem feature_parity_rejection
    (st : ClientImplState) (p : Presence)
    (hsub : p.subtype = PresenceType.Available)
    (hpong : p.pong = true)
    (hne : st.states ≠ [])
    (h : p.sn = none ∨ ∃ s, p.sn = some s ∧ ∃ n ∈ st.states, snFind s n = none) :
    handlePresence st p = (st, []) := by
  unfold handlePresence
  rw [hsub]
  simp [hpong, parityCheck_eq_false_of st.states p.sn hne h]

/-- Witness for C5: a client with one registered type rejects a Pong
presence without a Supported-Notifications extension. -/
theorem feature_parity_rejection_witness :
    handlePresence ⟨⟨"srv", "example.org", ""⟩, ["foo"]⟩
        ⟨PresenceType.Available, ⟨"srv", "example.org", "r2"⟩, true, none⟩ =
      (⟨⟨"srv", "example.org", ""⟩, ["foo"]⟩, []) :=
  feature_parity_rejection _ _ rfl rfl (by decide) (Or.inl rfl)

/-- Claim C6: `WaitForChange` returns the current state immediately
exactly when a state was ever received and its extracted id differs
from the known id; otherwise it enters the timed wait (5-second bound)
and returns whatever the state is at wake-up — always a state value,
never an error. -/
theorem wait_for_change_immediate
    (extract : Json → Json) (ns after : NotificationStateData) (known : Json) :
    (ns.hasState = true → Json.beq known (extract ns.state) = false →
      WaitForChange extract ns known after = ⟨ns.state, false⟩) ∧
    (¬ (ns.hasState = true ∧ Json.beq known (extract ns.state) = false) →
      WaitForChange extract ns known after = ⟨after.state, true⟩) ∧
    ((WaitForChange extract ns known after).value = ns.state ∨
      (WaitForChange extract ns known after).value = after.state) ∧
    WAITFORCHANGE_TIMEOUT_SECONDS = 5 := by
  refine ⟨?_, ?_, ?_, rfl⟩
  · intro hh hb
    simp [WaitForChange, hh, hb]
  · intro hc
    unfold WaitForChange
    cases hh : ns.hasState with
    | false => simp
    | true =>
        cases hb : Json.beq known (extract ns.state) with
        | false => exact absurd ⟨hh, hb⟩ hc
        | true => simp [hb]
  · unfold WaitForChange
    by_cases hcond : (ns.hasState && !(Json.beq known (extract ns.state))) = true
    · simp [hcond]
    · simp [hcond]

/-- Witness for C6: a cached state whose id differs from the known id is
returned without waiting. -/
theorem wait_for_change_immediate_witness :
    WaitForChange (fun j => j) ⟨true, Json.num 5⟩ (Json.num 4) ⟨true, Json.num 9⟩ =
      ⟨Json.num 5, false⟩ :=
  (wait_for_change_immediate (fun j => j) ⟨true, Json.num 5⟩ ⟨true, Json.num 9⟩
      (Json.num 4)).1 rfl (by simp [Json.beq])

/-- The entry check of `Client::Impl::TryEnsureFullServerJid`: the
ping / wait discovery body runs iff no full server JID is set. -/
def tryEnsureRunsDiscovery (fullServerJid : JID) : Bool :=
  !HasFullServerJid fullServerJid

/-- Claim C7: an Unavailable presence from the currently selected
qualified address resets it to its bare form (so the next operation
enters discovery again); an Unavailable presence from any other sender
leaves the state unchanged. -/
theorem unavailable_presence_resets
    (st : ClientImplState) (p : Presence)
    (hsub : p.subtype = PresenceType.Unavailable) :
    (p.fromJid = st.fullServerJid →
      handlePresence st p = ({ st with fullServerJid := st.fullServerJid.bareJID }, []) ∧
      tryEnsureRunsDiscovery (handlePresence st p).fst.fullServerJid = true) ∧
    (p.fromJid ≠ st.fullServerJid → handlePresence st p = (st, [])) := by
  constructor
  · intro hfrom
    constructor
    · unfold handlePresence
      rw [hsub]
      simp [hfrom]
    · unfold handlePresence
      rw [hsub]
      simp [hfrom, tryEnsureRunsDiscovery, HasFullServerJid, JID.bareJID]
  · intro hfrom
    unfold handlePresence
    rw [hsub]
    simp [hfrom]

/-- Witness for C7: the selected server's Unavailable presence clears
the resource; an unrelated sender's does not. -/
theorem unavailable_presence_resets_witness :
    (handlePresence ⟨⟨"srv", "example.org", "r1"⟩, []⟩
        ⟨PresenceType.Unavailable, ⟨"srv", "example.org", "r1"⟩, false, none⟩ =
      (⟨⟨"srv", "example.org", ""⟩, []⟩, []) ∧
      tryEnsureRunsDiscovery
        (handlePresence ⟨⟨"srv", "example.org", "r1"⟩, []⟩
          ⟨PresenceType.Unavailable, ⟨"srv", "example.org", "r1"⟩, false,
            none⟩).fst.fullServerJid = true) ∧
    handlePresence ⟨⟨"srv", "example.org", "r1"⟩, []⟩
        ⟨PresenceType.Unavailable, ⟨"srv", "example.org", "r2"⟩, false, none⟩ =
      (⟨⟨"srv", "example.org", "r1"⟩, []⟩, []) :=
  ⟨(unavailable_presence_resets ⟨⟨"srv", "example.org", "r1"⟩, []⟩
      ⟨PresenceType.Unavailable, ⟨"srv", "example.org", "r1"⟩, false, none⟩ rfl).1 rfl,
   (unavailable_presence_resets ⟨⟨"srv", "example.org", "r1"⟩, []⟩
      ⟨PresenceType.Unavailable, ⟨"srv", "example.org", "r2"⟩, false, none⟩ rfl).2
      (by decide)⟩

/-- Claim C8: `Client::AddNotification` aborts (a failed CHECK) exactly
when the connection was already started or the type name is already
registered; otherwise it succeeds and adds the type. -/
theorem add_notification_checks
    (c : ClientPub) (ty : String) :
    (AddNotification c ty = none ↔
      c.implExists = true ∨ c.notifications.contains ty = true) ∧
    (c.implExists = false → c.notifications.contains ty = false →
      AddNotification c ty = some { c with notifications := c.notifications ++ [ty] }) := by
  constructor
  · unfold AddNotification
    cases hi : c.implExists with
    | true => simp
    | false =>
        cases hm : c.notifications.contains ty with
        | true => simp
        | false => simp
  · intro hi hm
    simp [AddNotification, hi, hm]
    simpa using hm

/-- Witness for C8: adding a fresh type before connecting succeeds;
adding a duplicate or adding after connection start aborts. -/
theorem add_notification_checks_witness :
    AddNotification ⟨false, ["a"]⟩ "b" = some ⟨false, ["a", "b"]⟩ ∧
    AddNotification ⟨false, ["a"]⟩ "a" = none ∧
    AddNotification ⟨true, []⟩ "b" = none :=
  ⟨(add_notification_checks ⟨false, ["a"]⟩ "b").2 rfl (by decide),
   (add_notification_checks ⟨false, ["a"]⟩ "a").1.mpr (Or.inr (by decide)),
   (add_notification_checks ⟨true, []⟩ "b").1.mpr (Or.inl rfl)⟩

/-- Claim C9: the receive loop's result classification — "not
connected" and "stream closed" stop the loop normally, "no error"
continues it, and every other receive result is fatal; no result is
silently swallowed. -/
theorem receive_result_classification (res : ConnectionError) :
    (Receive res = ReceiveOutcome.stopLoop ↔
      res = ConnectionError.ConnNotConnected ∨ res = ConnectionError.ConnStreamClosed) ∧
    (Receive res = ReceiveOutcome.continueLoop ↔ res = ConnectionError.ConnNoError) ∧
    (Receive res = ReceiveOutcome.fatal ↔
      (res = ConnectionError.ConnNotConnected ∨ res = ConnectionError.ConnStreamClosed ∨
        res = ConnectionError.ConnNoError) = False) := by
  cases res <;> simp [Receive]

/-- Witness for C9: an I/O error result is fatal. -/
theorem receive_result_classification_witness :
    Receive ConnectionError.ConnIoError = ReceiveOutcome.fatal :=
  (receive_result_classification ConnectionError.ConnIoError).2.2.mpr (by simp)

/-- The item callback either drops the update (leaving the state
untouched) or stores the update's state with the has-state flag set. -/
theorem itemCallback_fst (ty : String) (ns : NotificationStateData) (t : UpdateTag) :
    (itemCallback ty ns t).fst = ns ∨
      (itemCallback ty ns t).fst = ⟨true, t.state⟩ := by
  unfold itemCallback
  cases t.hasUpdateChild with
  | false => left; rfl
  | true =>
      cases t.valid with
      | false => left; rfl
      | true =>
          by_cases h3 : t.tyName = ty
          · right; simp [h3]
          · left; simp [h3]

/-- A notification state reachable only through the item callback and
still flagged as having no state holds the default-constructed (null)
JSON value. -/
theorem reachable_no_state_null (ty : String) (ns : NotificationStateData)
    (h : ReachableNS ty ns) (hno : ns.hasState = false) : ns.state = Json.null := by
  induction h with
  | init => rfl
  | step ns t _ ih =>
      rcases itemCallback_fst ty ns t with heq | heq
      · rw [heq] at hno ⊢
        exact ih hno
      · rw [heq] at hno
        simp at hno

/-- Claim C10: while no update has ever been received, `WaitForChange`
never returns immediately — it always enters the timed wait — and when
the wait elapses with no update it returns the null JSON value. -/
theorem no_state_waits_and_returns_null
    (ty : String) (extract : Json → Json) (ns : NotificationStateData) (known : Json)
    (hreach : ReachableNS ty ns)
    (hno : ns.hasState = false) :
    (∀ after, (WaitForChange extract ns known after).waited = true) ∧
    WaitForChange extract ns known ns = ⟨Json.null, true⟩ := by
  constructor
  · intro after
    simp [WaitForChange, hno]
  · have hnull : ns.state = Json.null := reachable_no_state_null ty ns hreach hno
    simp [WaitForChange, hno, hnull]

/-- Witness for C10: the freshly constructed notification state waits
and yields null. -/
theorem no_state_waits_and_returns_null_witness :
    WaitForChange (fun j => j) initialNotificationState Json.null
        initialNotificationState = ⟨Json.null, true⟩ :=
  (no_state_waits_and_returns_null "t" (fun j => j) initialNotificationState Json.null
      ReachableNS.init rfl).2
